import Mathlib

/-!
# Temperature simulator: a verified model

Shallow embedding of the reading generator of the temperature-simulator
repository, together with proofs of its key properties.

Modelling conventions:
* Go `float64` values are modelled as exact rationals (`ℚ`).
* The random source (`rand.Float64()` draws) is a stream `rng : Nat → ℚ`
  consumed sequentially, one draw per sensor per tick; typical hypotheses
  require `0 ≤ rng m < 1`, matching the contract of `Float64`.
* `time.Time` moments are modelled by `Nat` (seconds); `time.Time.Format`
  with the fixed layout is an abstract parameter `fmtT : Nat → String`.
  In non-simulate mode the wall-clock sample taken at tick `t` is an
  abstract `wall : Nat → Nat`.
-/

namespace TempSim

/-- Sensor metadata, mirroring the source struct `Sensor`
(fields name, id, version, location, all strings). -/
structure Sensor where
  name : String
  id : String
  version : String
  location : String
deriving Repr, DecidableEq, Inhabited

/-- A single temperature reading, mirroring the source struct
`TemperatureReading`: a formatted time string, a temperature value and the
sensor metadata. -/
structure TemperatureReading where
  time : String
  temperature : ℚ
  sensor : Sensor
deriving Repr, DecidableEq, Inhabited

/-- Source constant `readingsPerHour = 60`. -/
def readingsPerHour : Nat := 60

/-- Source constant `increasePeriodMinutes = 5`. -/
def increasePeriodMinutes : Nat := 5

/-- Source: `increaseAmountPerMinute := maxTempIncrease / float64(increasePeriodMinutes)`. -/
def increaseAmountPerMinute (maxTempIncrease : ℚ) : ℚ :=
  maxTempIncrease / (increasePeriodMinutes : ℚ)

/-- Source clamp branch: `if temp < minTemp ... else if temp > maxTemp ...`. -/
def clampTemp (minTemp maxTemp temp : ℚ) : ℚ :=
  if temp < minTemp then minTemp
  else if temp > maxTemp then maxTemp
  else temp

/-- Source: `fluctuation := r.Float64()*2*tempFluctuation - tempFluctuation`. -/
def fluctuationValue (tempFluctuation u : ℚ) : ℚ :=
  u * 2 * tempFluctuation - tempFluctuation

/-- One sensor update inside a tick (source inner loop body): apply the
fluctuation, add the increase amount when in the increase phase, clamp. -/
def sensorStep (maxTempIncrease tempFluctuation minTemp maxTemp : ℚ)
    (increasePhase : Bool) (u temp : ℚ) : ℚ :=
  let temp1 := temp + fluctuationValue tempFluctuation u
  let temp2 := if increasePhase then temp1 + increaseAmountPerMinute maxTempIncrease
               else temp1
  clampTemp minTemp maxTemp temp2

/-- The time of tick `t` (0-indexed): in simulate mode the clock starts at
`t0` and is advanced by 60 seconds at the top of every tick; otherwise the
wall clock is sampled (source: `currentTime = currentTime.Add(60*time.Second)`
or `currentTime = time.Now().UTC()`). -/
def tickClock (simulate : Bool) (t0 : Nat) (wall : Nat → Nat) (t : Nat) : Nat :=
  if simulate then t0 + 60 * (t + 1) else wall t

/-- Inner per-sensor loop of the index-keyed generator (internal/simulator).
State is the parallel list of (sensor, current temperature) pairs; `k` is
the index of the next random draw. Each sensor contributes its updated
state entry and the emitted reading. -/
def tickSensors (maxTempIncrease tempFluctuation minTemp maxTemp : ℚ)
    (increasePhase : Bool) (ts : String) (rng : Nat → ℚ) :
    Nat → List (Sensor × ℚ) → List ((Sensor × ℚ) × TemperatureReading)
  | _, [] => []
  | k, (s, temp) :: rest =>
    let newTemp := sensorStep maxTempIncrease tempFluctuation minTemp maxTemp
      increasePhase (rng k) temp
    ((s, newTemp), ⟨ts, newTemp, s⟩) ::
      tickSensors maxTempIncrease tempFluctuation minTemp maxTemp increasePhase
        ts rng (k + 1) rest

/-- Outer tick loop of the index-keyed generator: `rem` ticks remain, `t` is
the current 0-indexed tick (source `loopCount`), `k` the next draw index. -/
def genAux (maxTempIncrease tempFluctuation minTemp maxTemp : ℚ)
    (simulate : Bool) (t0 : Nat) (wall : Nat → Nat) (fmtT : Nat → String)
    (rng : Nat → ℚ) :
    Nat → Nat → Nat → List (Sensor × ℚ) → List TemperatureReading
  | 0, _, _, _ => []
  | rem + 1, t, k, st =>
    let ts := fmtT (tickClock simulate t0 wall t)
    let phase := decide (t % readingsPerHour < increasePeriodMinutes)
    let step := tickSensors maxTempIncrease tempFluctuation minTemp maxTemp
      phase ts rng k st
    step.map Prod.snd ++
      genAux maxTempIncrease tempFluctuation minTemp maxTemp simulate t0 wall
        fmtT rng rem (t + 1) (k + st.length) (step.map Prod.fst)

/-- The index-keyed `GenerateTemperatureReadings` (internal/simulator):
initialises every sensor's temperature to `startingTemp`, runs
`totalReadings` ticks, and returns the readings together with the error
result, which the source always leaves nil (modelled as `none`). -/
def GenerateTemperatureReadings (sensors : List Sensor) (totalReadings : Nat)
    (startingTemp maxTempIncrease tempFluctuation minTemp maxTemp : ℚ)
    (simulate : Bool) (t0 : Nat) (wall : Nat → Nat) (fmtT : Nat → String)
    (rng : Nat → ℚ) : List TemperatureReading × Option String :=
  let st := sensors.map (fun s => (s, startingTemp))
  (genAux maxTempIncrease tempFluctuation minTemp maxTemp simulate t0 wall
    fmtT rng totalReadings 0 0 st, none)

/-- Lookup in the name-keyed sensor-temperature map (Go map read
`sensorTemps[sensor.Name]`; a missing key yields the zero value 0). -/
def mapGet (m : List (String × ℚ)) (key : String) : ℚ :=
  match m.find? (fun p => p.1 == key) with
  | some p => p.2
  | none => 0

/-- Update in the name-keyed sensor-temperature map (Go map write
`sensorTemps[sensor.Name] = temp`). -/
def mapSet : List (String × ℚ) → String → ℚ → List (String × ℚ)
  | [], key, v => [(key, v)]
  | (k0, v0) :: rest, key, v =>
    if k0 == key then (key, v) :: rest else (k0, v0) :: mapSet rest key v

/-- Inner per-sensor loop of the name-keyed generator variant: the state is
a map from sensor name to current temperature, shared by all sensors of the
same name. Returns the emitted readings and the final map. -/
def tickSensorsByName (maxTempIncrease tempFluctuation minTemp maxTemp : ℚ)
    (increasePhase : Bool) (ts : String) (rng : Nat → ℚ) :
    Nat → List Sensor → List (String × ℚ) →
      List TemperatureReading × List (String × ℚ)
  | _, [], m => ([], m)
  | k, s :: rest, m =>
    let temp := mapGet m s.name
    let newTemp := sensorStep maxTempIncrease tempFluctuation minTemp maxTemp
      increasePhase (rng k) temp
    let m2 := mapSet m s.name newTemp
    let out := tickSensorsByName maxTempIncrease tempFluctuation minTemp maxTemp
      increasePhase ts rng (k + 1) rest m2
    (⟨ts, newTemp, s⟩ :: out.1, out.2)

/-- Outer tick loop of the name-keyed generator variant. -/
def genByNameAux (sensors : List Sensor)
    (maxTempIncrease tempFluctuation minTemp maxTemp : ℚ)
    (simulate : Bool) (t0 : Nat) (wall : Nat → Nat) (fmtT : Nat → String)
    (rng : Nat → ℚ) :
    Nat → Nat → Nat → List (String × ℚ) → List TemperatureReading
  | 0, _, _, _ => []
  | rem + 1, t, k, m =>
    let ts := fmtT (tickClock simulate t0 wall t)
    let phase := decide (t % readingsPerHour < increasePeriodMinutes)
    let step := tickSensorsByName maxTempIncrease tempFluctuation minTemp maxTemp
      phase ts rng k sensors m
    step.1 ++
      genByNameAux sensors maxTempIncrease tempFluctuation minTemp maxTemp
        simulate t0 wall fmtT rng rem (t + 1) (k + sensors.length) step.2

/-- The name-keyed `GenerateTemperatureReadings` variant: sensor state is a
map keyed by sensor name, seeded with `startingTemp` for every listed name. -/
def GenerateTemperatureReadingsByName (sensors : List Sensor)
    (totalReadings : Nat)
    (startingTemp maxTempIncrease tempFluctuation minTemp maxTemp : ℚ)
    (simulate : Bool) (t0 : Nat) (wall : Nat → Nat) (fmtT : Nat → String)
    (rng : Nat → ℚ) : List TemperatureReading × Option String :=
  let m0 := sensors.foldl (fun m s => mapSet m s.name startingTemp) []
  (genByNameAux sensors maxTempIncrease tempFluctuation minTemp maxTemp
    simulate t0 wall fmtT rng totalReadings 0 0 m0, none)

/-! ## JSON model

The serialized form of a reading is modelled by a small JSON value type.
A JSON number is carried as the exact rational it denotes; the temperature
marshaller writes the value rounded to two decimal places (source:
`strconv.FormatFloat(float64(t), 102, 2, 64)` / a two-decimal format verb),
with ties resolved to even as in Go's correctly-rounded formatting. -/

inductive Json where
  | str : String → Json
  | num : ℚ → Json
  | obj : List (String × Json) → Json

/-- Floor of a rational, computed from its normalised fraction. -/
def ratFloor (q : ℚ) : ℤ :=
  q.num.fdiv q.den

/-- Round to the nearest integer, ties to even (the rounding of Go's
correctly-rounded decimal formatting). -/
def roundHalfEven (q : ℚ) : ℤ :=
  let f := ratFloor q
  let frac := q - (f : ℚ)
  if frac < 1 / 2 then f
  else if frac > 1 / 2 then f + 1
  else if f % 2 = 0 then f else f + 1

/-- The value denoted by the two-decimal formatting of `q`. -/
def round2 (q : ℚ) : ℚ :=
  (roundHalfEven (q * 100) : ℚ) / 100

/-- `Temperature.MarshalJSON`: the two-decimal formatted number. -/
def marshalTemperature (t : ℚ) : Json :=
  Json.num (round2 t)

/-- JSON encoding of a `Sensor` (all fields are strings). -/
def marshalSensor (s : Sensor) : Json :=
  Json.obj [("name", Json.str s.name), ("id", Json.str s.id),
    ("version", Json.str s.version), ("location", Json.str s.location)]

/-- JSON encoding of a `TemperatureReading`, with the field layout of the
source struct tags. -/
def marshalReading (r : TemperatureReading) : Json :=
  Json.obj [("time", Json.str r.time),
    ("temperature", marshalTemperature r.temperature),
    ("sensor", marshalSensor r.sensor)]

/-- Field lookup in a JSON object body. -/
def jlookup (l : List (String × Json)) (key : String) : Option Json :=
  (l.find? (fun p => p.1 == key)).map (fun p => p.2)

/-- Decode a string-typed struct field: absent keys give the zero value,
a value of the wrong JSON type is a decode error. -/
def fieldStr (l : List (String × Json)) (key : String) : Option String :=
  match jlookup l key with
  | none => some ""
  | some (Json.str s) => some s
  | some _ => none

/-- Decode the temperature field (`Temperature.UnmarshalJSON` parses the raw
bytes as a float): absent keys give the zero value, non-number JSON is a
decode error. -/
def fieldTemp (l : List (String × Json)) (key : String) : Option ℚ :=
  match jlookup l key with
  | none => some 0
  | some (Json.num q) => some q
  | some _ => none

/-- Decode a `Sensor` from JSON. -/
def unmarshalSensor : Json → Option Sensor
  | Json.obj l => do
    let name ← fieldStr l "name"
    let id ← fieldStr l "id"
    let version ← fieldStr l "version"
    let location ← fieldStr l "location"
    pure ⟨name, id, version, location⟩
  | _ => none

/-- Decode a `TemperatureReading` from JSON. -/
def unmarshalReading : Json → Option TemperatureReading
  | Json.obj l => do
    let time ← fieldStr l "time"
    let temp ← fieldTemp l "temperature"
    let sensor ←
      match jlookup l "sensor" with
      | none => some (⟨"", "", "", ""⟩ : Sensor)
      | some j => unmarshalSensor j
    pure ⟨time, temp, sensor⟩
  | _ => none

/-- Temperature of the sensor at position `i` (among `n` sensors) after `d`
further ticks, starting from value `start` at tick `t` with next draw index
`k`: the closed form of the per-sensor random walk performed by the
generator. -/
def iterTemp (mi fl mn mx : ℚ) (rng : Nat → ℚ) (n i t k : Nat)
    (start : ℚ) : Nat → ℚ
  | 0 => start
  | d + 1 =>
    sensorStep mi fl mn mx
      (decide ((t + d) % readingsPerHour < increasePeriodMinutes))
      (rng (k + d * n + i)) (iterTemp mi fl mn mx rng n i t k start d)

/-- Modelled from the spec's words: clamping a value into the interval
`[minTemp, maxTemp]`. Used as the refinement target for the per-tick update
rule; compared against the source's `clampTemp`. -/
def specClamp (mn mx x : ℚ) : ℚ :=
  max mn (min mx x)

/-- Modelled from the spec's words, the per-tick update rule of claim C2:
current temperature of sensor `i` (among `n`) after `t` ticks is obtained
by repeatedly adding the drawn fluctuation, adding the ramp increment
`maxRampAmount / 5` when `t mod 60 < 5`, and clamping into
`[minTemp, maxTemp]`. `flucts m` is the fluctuation drawn for the `m`-th
sensor-update overall. -/
def specTempSeq (mi mn mx : ℚ) (flucts : Nat → ℚ) (n i : Nat)
    (start : ℚ) : Nat → ℚ
  | 0 => start
  | t + 1 =>
    specClamp mn mx
      (specTempSeq mi mn mx flucts n i start t + flucts (t * n + i) +
        (if t % 60 < 5 then mi / 5 else 0))

/-! ## General lemmas about the generator -/

/-- the inner loop emits one state entry and one reading per sensor. -/
theorem tickSensors_length (mi fl mn mx : ℚ) (phase : Bool) (ts : String)
    (rng : Nat → ℚ) :
    ∀ (st : List (Sensor × ℚ)) (k : Nat),
      (tickSensors mi fl mn mx phase ts rng k st).length = st.length := by
  intro st
  induction st with
  | nil => intro k; rfl
  | cons hd tl ih =>
    intro k
    cases hd with
    | mk s q => simp [tickSensors, ih (k + 1)]

/-- the inner loop output at position `j` is determined by the state entry
at `j` alone (and the draw `k + j`). -/
theorem tickSensors_getElem? (mi fl mn mx : ℚ) (phase : Bool) (ts : String)
    (rng : Nat → ℚ) :
    ∀ (st : List (Sensor × ℚ)) (k j : Nat) (s : Sensor) (q : ℚ),
      st[j]? = some (s, q) →
      (tickSensors mi fl mn mx phase ts rng k st)[j]? =
        some ((s, sensorStep mi fl mn mx phase (rng (k + j)) q),
          ⟨ts, sensorStep mi fl mn mx phase (rng (k + j)) q, s⟩) := by
  intro st
  induction st with
  | nil => intro k j s q h; simp at h
  | cons hd tl ih =>
    intro k j s q h
    cases hd with
    | mk s0 q0 =>
      cases j with
      | zero =>
        simp at h
        simp [tickSensors, h.1, h.2]
      | succ j =>
        simp at h
        have := ih (k + 1) j s q h
        simpa [tickSensors, Nat.add_assoc, Nat.add_comm 1 j] using this

/-- the outer loop emits `rem * st.length` readings. -/
theorem genAux_length (mi fl mn mx : ℚ) (sim : Bool) (t0 : Nat)
    (wall : Nat → Nat) (fmtT : Nat → String) (rng : Nat → ℚ) :
    ∀ (rem t k : Nat) (st : List (Sensor × ℚ)),
      (genAux mi fl mn mx sim t0 wall fmtT rng rem t k st).length =
        rem * st.length := by
  intro rem
  induction rem with
  | zero => intro t k st; simp [genAux]
  | succ rem ih =>
    intro t k st
    simp [genAux, ih, tickSensors_length, Nat.succ_mul, Nat.add_comm]

/-- absorbing the first step of the walk into the starting value. -/
theorem iterTemp_shift (mi fl mn mx : ℚ) (rng : Nat → ℚ) (n i t k : Nat)
    (q : ℚ) :
    ∀ d : Nat,
      iterTemp mi fl mn mx rng n i (t + 1) (k + n)
        (sensorStep mi fl mn mx
          (decide (t % readingsPerHour < increasePeriodMinutes))
          (rng (k + i)) q) d =
      iterTemp mi fl mn mx rng n i t k q (d + 1) := by
  intro d
  induction d with
  | zero => simp [iterTemp]
  | succ e ih =>
    have h1 : t + 1 + e = t + (e + 1) := by omega
    have h2 : k + n + e * n + i = k + (e + 1) * n + i := by
      rw [Nat.succ_mul]; omega
    rw [iterTemp, ih, h1, h2]
    conv_rhs => rw [iterTemp]

/-- Master indexing lemma: the reading emitted at offset `d * st.length + i`
of the outer loop carries the tick-`t + d` timestamp, the sensor stored at
position `i`, and the `d + 1`-fold iterated temperature of that sensor. -/
theorem genAux_getElem? (mi fl mn mx : ℚ) (sim : Bool) (t0 : Nat)
    (wall : Nat → Nat) (fmtT : Nat → String) (rng : Nat → ℚ) :
    ∀ (d rem t k : Nat) (st : List (Sensor × ℚ)) (i : Nat) (s : Sensor)
      (q : ℚ), d < rem → st[i]? = some (s, q) →
      (genAux mi fl mn mx sim t0 wall fmtT rng rem t k st)[d * st.length + i]? =
        some ⟨fmtT (tickClock sim t0 wall (t + d)),
          iterTemp mi fl mn mx rng st.length i t k q (d + 1), s⟩ := by
  intro d
  induction d with
  | zero =>
    intro rem t k st i s q hd hst
    obtain ⟨rem, rfl⟩ : ∃ rem0, rem = rem0 + 1 :=
      ⟨rem - 1, by omega⟩
    have hi : i < st.length := by
      by_contra hge
      rw [List.getElem?_eq_none (by omega)] at hst
      exact Option.noConfusion hst
    rw [genAux]
    have hlen : (List.map Prod.snd
        (tickSensors mi fl mn mx
          (decide (t % readingsPerHour < increasePeriodMinutes))
          (fmtT (tickClock sim t0 wall t)) rng k st)).length = st.length := by
      rw [List.length_map, tickSensors_length]
    rw [Nat.zero_mul, Nat.zero_add,
      List.getElem?_append_left (by omega),
      List.getElem?_map, tickSensors_getElem? _ _ _ _ _ _ _ _ _ _ _ _ hst]
    simp [iterTemp]
  | succ e ih =>
    intro rem t k st i s q hd hst
    obtain ⟨rem, rfl⟩ : ∃ rem0, rem = rem0 + 1 :=
      ⟨rem - 1, by omega⟩
    rw [genAux]
    have hlen : (List.map Prod.snd
        (tickSensors mi fl mn mx
          (decide (t % readingsPerHour < increasePeriodMinutes))
          (fmtT (tickClock sim t0 wall t)) rng k st)).length = st.length := by
      rw [List.length_map, tickSensors_length]
    have hoff : st.length ≤ (e + 1) * st.length + i := by
      rw [Nat.succ_mul]; omega
    rw [List.getElem?_append_right (by omega)]
    have hsub : (e + 1) * st.length + i -
        (List.map Prod.snd
          (tickSensors mi fl mn mx
            (decide (t % readingsPerHour < increasePeriodMinutes))
            (fmtT (tickClock sim t0 wall t)) rng k st)).length =
        e * st.length + i := by
      rw [hlen, Nat.succ_mul]; omega
    rw [hsub]
    have hst2 : (List.map Prod.fst
        (tickSensors mi fl mn mx
          (decide (t % readingsPerHour < increasePeriodMinutes))
          (fmtT (tickClock sim t0 wall t)) rng k st))[i]? =
        some (s, sensorStep mi fl mn mx
          (decide (t % readingsPerHour < increasePeriodMinutes))
          (rng (k + i)) q) := by
      rw [List.getElem?_map, tickSensors_getElem? _ _ _ _ _ _ _ _ _ _ _ _ hst]
      rfl
    have hlen2 : (List.map Prod.fst
        (tickSensors mi fl mn mx
          (decide (t % readingsPerHour < increasePeriodMinutes))
          (fmtT (tickClock sim t0 wall t)) rng k st)).length = st.length := by
      rw [List.length_map, tickSensors_length]
    have := ih rem (t + 1) (k + st.length)
      (List.map Prod.fst
        (tickSensors mi fl mn mx
          (decide (t % readingsPerHour < increasePeriodMinutes))
          (fmtT (tickClock sim t0 wall t)) rng k st)) i s
      (sensorStep mi fl mn mx
        (decide (t % readingsPerHour < increasePeriodMinutes))
        (rng (k + i)) q) (by omega) hst2
    rw [hlen2] at this
    rw [this, iterTemp_shift]
    have harg : t + 1 + e = t + (e + 1) := by omega
    rw [harg]

/-- Top-level indexing: the reading at position `t * sensorCount + i` of a
generator run carries the tick-`t` timestamp, input sensor `i`, and that
sensor's `t + 1`-fold iterated temperature. -/
theorem Generate_getElem? (sensors : List Sensor) (total : Nat)
    (start mi fl mn mx : ℚ) (sim : Bool) (t0 : Nat) (wall : Nat → Nat)
    (fmtT : Nat → String) (rng : Nat → ℚ) (t i : Nat) (s : Sensor)
    (ht : t < total) (hs : sensors[i]? = some s) :
    (GenerateTemperatureReadings sensors total start mi fl mn mx sim t0 wall
        fmtT rng).1[t * sensors.length + i]? =
      some ⟨fmtT (tickClock sim t0 wall t),
        iterTemp mi fl mn mx rng sensors.length i 0 0 start (t + 1), s⟩ := by
  have hst : (sensors.map (fun s => (s, start)))[i]? = some (s, start) := by
    rw [List.getElem?_map, hs]; rfl
  have := genAux_getElem? mi fl mn mx sim t0 wall fmtT rng t total 0 0
    (sensors.map (fun s => (s, start))) i s start ht hst
  rw [List.length_map] at this
  simpa [GenerateTemperatureReadings] using this

/-- the clamp keeps values inside `[minTemp, maxTemp]` when the bounds are
ordered. -/
theorem clampTemp_mem (mn mx x : ℚ) (h : mn ≤ mx) :
    mn ≤ clampTemp mn mx x ∧ clampTemp mn mx x ≤ mx := by
  unfold clampTemp
  split
  · exact ⟨le_refl mn, h⟩
  · split
    · exact ⟨h, le_refl mx⟩
    · constructor
      · linarith [not_lt.mp (by assumption : ¬ x < mn)]
      · linarith [not_lt.mp (by assumption : ¬ x > mx)]

/-- every reading emitted by the inner loop has a clamped temperature. -/
theorem tickSensors_temp_clamped (mi fl mn mx : ℚ) (phase : Bool)
    (ts : String) (rng : Nat → ℚ) :
    ∀ (st : List (Sensor × ℚ)) (k : Nat)
      (x : (Sensor × ℚ) × TemperatureReading),
      x ∈ tickSensors mi fl mn mx phase ts rng k st →
      ∃ y, x.2.temperature = clampTemp mn mx y := by
  intro st
  induction st with
  | nil => intro k x hx; simp [tickSensors] at hx
  | cons hd tl ih =>
    intro k x hx
    cases hd with
    | mk s0 q0 =>
      rw [tickSensors] at hx
      rcases List.mem_cons.mp hx with h | h
      · subst h
        exact ⟨_, rfl⟩
      · exact ih (k + 1) x h

/-- every reading emitted by the outer loop has a clamped temperature. -/
theorem genAux_temp_clamped (mi fl mn mx : ℚ) (sim : Bool) (t0 : Nat)
    (wall : Nat → Nat) (fmtT : Nat → String) (rng : Nat → ℚ) :
    ∀ (rem t k : Nat) (st : List (Sensor × ℚ)) (r : TemperatureReading),
      r ∈ genAux mi fl mn mx sim t0 wall fmtT rng rem t k st →
      ∃ y, r.temperature = clampTemp mn mx y := by
  intro rem
  induction rem with
  | zero => intro t k st r hr; simp [genAux] at hr
  | succ rem ih =>
    intro t k st r hr
    rw [genAux] at hr
    rcases List.mem_append.mp hr with h | h
    · rcases List.mem_map.mp h with ⟨x, hx, rfl⟩
      exact tickSensors_temp_clamped mi fl mn mx _ _ rng st k x hx
    · exact ih (t + 1) (k + st.length) _ r h

/-- with ordered bounds, the source's clamp branch agrees with the
spec-worded interval clamp. -/
theorem clampTemp_eq_specClamp (mn mx x : ℚ) (h : mn ≤ mx) :
    clampTemp mn mx x = specClamp mn mx x := by
  unfold clampTemp specClamp
  rcases lt_trichotomy x mn with hx | hx | hx
  · rw [if_pos hx, min_eq_right (by linarith), max_eq_left (by linarith)]
  · subst hx
    rw [if_neg (lt_irrefl x), min_eq_right h, max_eq_right (le_refl x)]
    split
    · linarith
    · rfl
  · rw [if_neg (by linarith)]
    rcases le_or_lt x mx with hx2 | hx2
    · rw [if_neg (by linarith), min_eq_right hx2, max_eq_right (by linarith)]
    · rw [if_pos hx2, min_eq_left (by linarith), max_eq_right h]

/-- with ordered bounds, the random walk performed by the generator for the
sensor at position `i` is exactly the spec-worded update sequence, with the
fluctuations instantiated to the values the code derives from the random
stream. -/
theorem iterTemp_eq_specTempSeq (mi fl mn mx start : ℚ) (rng : Nat → ℚ)
    (n i : Nat) (h : mn ≤ mx) :
    ∀ d, iterTemp mi fl mn mx rng n i 0 0 start d =
      specTempSeq mi mn mx (fun m => fluctuationValue fl (rng m)) n i start d := by
  intro d
  induction d with
  | zero => rfl
  | succ d ih =>
    rw [iterTemp, ih, specTempSeq]
    simp only [sensorStep, increaseAmountPerMinute, readingsPerHour,
      increasePeriodMinutes, Nat.zero_add, Nat.zero_add, decide_eq_true_eq]
    rw [clampTemp_eq_specClamp _ _ _ h]
    congr 1
    by_cases hp : d % 60 < 5
    · rw [if_pos hp, if_pos hp]
      push_cast
      ring
    · rw [if_neg hp, if_neg hp]
      ring

/-! ## The claims -/

/-- C1: for every run of the reading generator with
`minTemp <= maxTemp`, every emitted reading's temperature satisfies
`minTemp <= temperature <= maxTemp`. -/
theorem claim_C1 (sensors : List Sensor) (total : Nat)
    (start mi fl mn mx : ℚ) (sim : Bool) (t0 : Nat) (wall : Nat → Nat)
    (fmtT : Nat → String) (rng : Nat → ℚ) (h : mn ≤ mx) :
    ∀ r ∈ (GenerateTemperatureReadings sensors total start mi fl mn mx sim
      t0 wall fmtT rng).1, mn ≤ r.temperature ∧ r.temperature ≤ mx := by
  intro r hr
  simp only [GenerateTemperatureReadings] at hr
  obtain ⟨y, hy⟩ := genAux_temp_clamped mi fl mn mx sim t0 wall fmtT rng
    total 0 0 (sensors.map (fun s => (s, start))) r hr
  rw [hy]
  exact clampTemp_mem mn mx y h

theorem claim_C1_witness :
    ((0 : ℚ) ≤ 50) ∧
    ∀ r ∈ (GenerateTemperatureReadings [⟨"SensorA", "001", "v1.0", "LocationA"⟩]
      3 20 30 3 0 50 true 0 (fun _ => 0) (fun _ => "ts") (fun _ => 0)).1,
      (0 : ℚ) ≤ r.temperature ∧ r.temperature ≤ 50 :=
  ⟨by norm_num,
    claim_C1 [⟨"SensorA", "001", "v1.0", "LocationA"⟩] 3 20 30 3 0 50 true 0
      (fun _ => 0) (fun _ => "ts") (fun _ => 0) (by norm_num)⟩

/-- C2: at every tick `t` the generator updates each sensor's current
temperature exactly by the spec-worded rule (add a fluctuation derived from
the uniform draw, add `maxRampAmount / 5` when `t mod 60 < 5`, clamp into
`[minTemp, maxTemp]`), the clamped value is both the new current
temperature and the emitted value, and with draws in `[0, 1)` and a
nonnegative amplitude each fluctuation lies in
`[-fluctuationAmplitude, fluctuationAmplitude]`. -/
theorem claim_C2 (sensors : List Sensor) (total : Nat)
    (start mi fl mn mx : ℚ) (sim : Bool) (t0 : Nat) (wall : Nat → Nat)
    (fmtT : Nat → String) (rng : Nat → ℚ) (t i : Nat) (s : Sensor)
    (h : mn ≤ mx) (ht : t < total) (hs : sensors[i]? = some s) :
    (GenerateTemperatureReadings sensors total start mi fl mn mx sim t0 wall
        fmtT rng).1[t * sensors.length + i]? =
      some ⟨fmtT (tickClock sim t0 wall t),
        specTempSeq mi mn mx (fun m => fluctuationValue fl (rng m))
          sensors.length i start (t + 1), s⟩ ∧
    (0 ≤ fl → (∀ m, 0 ≤ rng m ∧ rng m < 1) →
      -fl ≤ fluctuationValue fl (rng (t * sensors.length + i)) ∧
      fluctuationValue fl (rng (t * sensors.length + i)) ≤ fl) := by
  constructor
  · rw [Generate_getElem? sensors total start mi fl mn mx sim t0 wall fmtT rng
      t i s ht hs, iterTemp_eq_specTempSeq mi fl mn mx start rng
      sensors.length i h]
  · intro hfl hrng
    obtain ⟨h0, h1⟩ := hrng (t * sensors.length + i)
    unfold fluctuationValue
    constructor
    · nlinarith
    · nlinarith

theorem claim_C2_witness :
    ((0 : ℚ) ≤ 50) ∧ (0 < 3) ∧
      ([(⟨"SensorA", "001", "v1.0", "LocationA"⟩ : Sensor)][0]? =
        some ⟨"SensorA", "001", "v1.0", "LocationA"⟩) ∧
    ((GenerateTemperatureReadings [⟨"SensorA", "001", "v1.0", "LocationA"⟩]
        3 20 30 3 0 50 true 0 (fun _ => 0) (fun _ => "ts")
        (fun _ => 1/2)).1[0 * 1 + 0]? =
      some ⟨"ts", specTempSeq 30 0 50 (fun m => fluctuationValue 3 ((fun _ => (1:ℚ)/2) m))
        1 0 20 (0 + 1), ⟨"SensorA", "001", "v1.0", "LocationA"⟩⟩ ∧
    (0 ≤ (3:ℚ) → (∀ m : Nat, 0 ≤ ((fun _ => (1:ℚ)/2) m) ∧ ((fun _ => (1:ℚ)/2) m) < 1) →
      -(3:ℚ) ≤ fluctuationValue 3 ((fun _ => (1:ℚ)/2) (0 * 1 + 0)) ∧
      fluctuationValue 3 ((fun _ => (1:ℚ)/2) (0 * 1 + 0)) ≤ 3)) :=
  ⟨by norm_num, by norm_num, rfl,
    (by
      have := claim_C2 [⟨"SensorA", "001", "v1.0", "LocationA"⟩] 3 20 30 3 0 50
        true 0 (fun _ => 0) (fun _ => "ts") (fun _ => 1/2) 0 0
        ⟨"SensorA", "001", "v1.0", "LocationA"⟩ (by norm_num) (by norm_num) rfl
      simpa [tickClock] using this)⟩

/-- C3: for every valid input (non-empty sensor list, ordered bounds) the
generator returns exactly `totalTicks * sensorCount` readings and no error;
in particular `totalTicks = 0` yields the empty sequence and no error. -/
theorem claim_C3 (sensors : List Sensor) (total : Nat)
    (start mi fl mn mx : ℚ) (sim : Bool) (t0 : Nat) (wall : Nat → Nat)
    (fmtT : Nat → String) (rng : Nat → ℚ)
    (hne : sensors ≠ []) (h : mn ≤ mx) :
    (GenerateTemperatureReadings sensors total start mi fl mn mx sim t0 wall
        fmtT rng).1.length = total * sensors.length ∧
    (GenerateTemperatureReadings sensors total start mi fl mn mx sim t0 wall
        fmtT rng).2 = none ∧
    (total = 0 →
      (GenerateTemperatureReadings sensors total start mi fl mn mx sim t0 wall
        fmtT rng).1 = []) := by
  refine ⟨?_, rfl, ?_⟩
  · simp [GenerateTemperatureReadings, genAux_length]
  · rintro rfl
    rfl

theorem claim_C3_witness :
    (([(⟨"SensorA", "001", "v1.0", "LocationA"⟩ : Sensor)] : List Sensor) ≠ []) ∧
    ((0 : ℚ) ≤ 50) ∧
    ((GenerateTemperatureReadings [⟨"SensorA", "001", "v1.0", "LocationA"⟩]
        0 20 30 3 0 50 true 0 (fun _ => 0) (fun _ => "ts")
        (fun _ => 0)).1.length = 0 * 1 ∧
      (GenerateTemperatureReadings [⟨"SensorA", "001", "v1.0", "LocationA"⟩]
        0 20 30 3 0 50 true 0 (fun _ => 0) (fun _ => "ts") (fun _ => 0)).2 =
        none ∧
      (0 = 0 →
        (GenerateTemperatureReadings [⟨"SensorA", "001", "v1.0", "LocationA"⟩]
          0 20 30 3 0 50 true 0 (fun _ => 0) (fun _ => "ts")
          (fun _ => 0)).1 = [])) :=
  ⟨by simp, by norm_num,
    claim_C3 [⟨"SensorA", "001", "v1.0", "LocationA"⟩] 0 20 30 3 0 50 true 0
      (fun _ => 0) (fun _ => "ts") (fun _ => 0) (by simp) (by norm_num)⟩

/-- C4: the output is in tick-major order: the reading at position
`t * sensorCount + i` carries sensor `i` of the input list. -/
theorem claim_C4 (sensors : List Sensor) (total : Nat)
    (start mi fl mn mx : ℚ) (sim : Bool) (t0 : Nat) (wall : Nat → Nat)
    (fmtT : Nat → String) (rng : Nat → ℚ) (t i : Nat) (s : Sensor)
    (ht : t < total) (hs : sensors[i]? = some s) :
    ((GenerateTemperatureReadings sensors total start mi fl mn mx sim t0 wall
        fmtT rng).1[t * sensors.length + i]?).map
      (fun r => r.sensor) = some s := by
  rw [Generate_getElem? sensors total start mi fl mn mx sim t0 wall fmtT rng
    t i s ht hs]
  rfl

theorem claim_C4_witness :
    (1 < 2) ∧
    (([(⟨"SensorA", "001", "v1.0", "LocationA"⟩ : Sensor),
       ⟨"SensorB", "002", "v1.1", "LocationB"⟩][1]?) =
      some ⟨"SensorB", "002", "v1.1", "LocationB"⟩) ∧
    ((GenerateTemperatureReadings
        [⟨"SensorA", "001", "v1.0", "LocationA"⟩,
         ⟨"SensorB", "002", "v1.1", "LocationB"⟩]
        2 20 30 3 0 50 true 0 (fun _ => 0) (fun _ => "ts")
        (fun _ => 0)).1[1 * 2 + 1]?).map (fun r => r.sensor) =
      some ⟨"SensorB", "002", "v1.1", "LocationB"⟩ :=
  ⟨by norm_num, rfl,
    claim_C4 [⟨"SensorA", "001", "v1.0", "LocationA"⟩,
      ⟨"SensorB", "002", "v1.1", "LocationB"⟩] 2 20 30 3 0 50 true 0
      (fun _ => 0) (fun _ => "ts") (fun _ => 0) 1 1
      ⟨"SensorB", "002", "v1.1", "LocationB"⟩ (by norm_num) rfl⟩

/-- C9: in simulate mode the reading of sensor `i` at tick `t` carries the
timestamp of the virtual moment `tickClock true t0 wall t`, and consecutive
ticks' moments are exactly 60 (simulated) seconds apart. -/
theorem claim_C9 (sensors : List Sensor) (total : Nat)
    (start mi fl mn mx : ℚ) (t0 : Nat) (wall : Nat → Nat)
    (fmtT : Nat → String) (rng : Nat → ℚ) (t i : Nat) (s : Sensor)
    (ht : t < total) (hs : sensors[i]? = some s) :
    ((GenerateTemperatureReadings sensors total start mi fl mn mx true t0 wall
        fmtT rng).1[t * sensors.length + i]?).map (fun r => r.time) =
      some (fmtT (tickClock true t0 wall t)) ∧
    tickClock true t0 wall (t + 1) = tickClock true t0 wall t + 60 := by
  constructor
  · rw [Generate_getElem? sensors total start mi fl mn mx true t0 wall fmtT rng
      t i s ht hs]
    rfl
  · simp [tickClock]
    ring

theorem claim_C9_witness :
    (0 < 2) ∧
    (([(⟨"SensorA", "001", "v1.0", "LocationA"⟩ : Sensor)][0]?) =
      some ⟨"SensorA", "001", "v1.0", "LocationA"⟩) ∧
    (((GenerateTemperatureReadings [⟨"SensorA", "001", "v1.0", "LocationA"⟩]
        2 20 30 3 0 50 true 7 (fun _ => 0) (fun n => toString n)
        (fun _ => 0)).1[0 * 1 + 0]?).map (fun r => r.time) =
      some (toString (tickClock true 7 (fun _ => 0) 0)) ∧
    tickClock true 7 (fun _ => 0) (0 + 1) =
      tickClock true 7 (fun _ => 0) 0 + 60) :=
  ⟨by norm_num, rfl,
    claim_C9 [⟨"SensorA", "001", "v1.0", "LocationA"⟩] 2 20 30 3 0 50 7
      (fun _ => 0) (fun n => toString n) (fun _ => 0) 0 0
      ⟨"SensorA", "001", "v1.0", "LocationA"⟩ (by norm_num) rfl⟩

/-- C10: within a single tick every reading carries the identical timestamp
string, whatever the mode: the readings for sensors `i` and `j` at tick `t`
have equal time fields. -/
theorem claim_C10 (sensors : List Sensor) (total : Nat)
    (start mi fl mn mx : ℚ) (sim : Bool) (t0 : Nat) (wall : Nat → Nat)
    (fmtT : Nat → String) (rng : Nat → ℚ) (t i j : Nat) (s s2 : Sensor)
    (ht : t < total) (hi : sensors[i]? = some s) (hj : sensors[j]? = some s2) :
    ((GenerateTemperatureReadings sensors total start mi fl mn mx sim t0 wall
        fmtT rng).1[t * sensors.length + i]?).map (fun r => r.time) =
    ((GenerateTemperatureReadings sensors total start mi fl mn mx sim t0 wall
        fmtT rng).1[t * sensors.length + j]?).map (fun r => r.time) := by
  have h1 := Generate_getElem? sensors total start mi fl mn mx sim t0 wall
    fmtT rng t i s ht hi
  have h2 := Generate_getElem? sensors total start mi fl mn mx sim t0 wall
    fmtT rng t j s2 ht hj
  simp only [h1, h2, Option.map_some']

theorem claim_C10_witness :
    (0 < 2) ∧
    (([(⟨"SensorA", "001", "v1.0", "LocationA"⟩ : Sensor),
       ⟨"SensorB", "002", "v1.1", "LocationB"⟩][0]?) =
      some ⟨"SensorA", "001", "v1.0", "LocationA"⟩) ∧
    (([(⟨"SensorA", "001", "v1.0", "LocationA"⟩ : Sensor),
       ⟨"SensorB", "002", "v1.1", "LocationB"⟩][1]?) =
      some ⟨"SensorB", "002", "v1.1", "LocationB"⟩) ∧
    ((GenerateTemperatureReadings
        [⟨"SensorA", "001", "v1.0", "LocationA"⟩,
         ⟨"SensorB", "002", "v1.1", "LocationB"⟩]
        2 20 30 3 0 50 false 0 (fun n => 100 + n) (fun n => toString n)
        (fun _ => 0)).1[0 * 2 + 0]?).map (fun r => r.time) =
      ((GenerateTemperatureReadings
        [⟨"SensorA", "001", "v1.0", "LocationA"⟩,
         ⟨"SensorB", "002", "v1.1", "LocationB"⟩]
        2 20 30 3 0 50 false 0 (fun n => 100 + n) (fun n => toString n)
        (fun _ => 0)).1[0 * 2 + 1]?).map (fun r => r.time) :=
  ⟨by norm_num, rfl, rfl,
    claim_C10 [⟨"SensorA", "001", "v1.0", "LocationA"⟩,
      ⟨"SensorB", "002", "v1.1", "LocationB"⟩] 2 20 30 3 0 50 false 0
      (fun n => 100 + n) (fun n => toString n) (fun _ => 0) 0 0 1
      ⟨"SensorA", "001", "v1.0", "LocationA"⟩
      ⟨"SensorB", "002", "v1.1", "LocationB"⟩ (by norm_num) rfl rfl⟩

/-- C5 as stated is false: with `minTemp = 1 > 0 = maxTemp` the generator is
not rejected — it runs, emits a reading, and returns a nil error. -/
theorem claim_C5_counterexample :
    ((1 : ℚ) > 0) ∧
    (GenerateTemperatureReadings [⟨"SensorA", "001", "v1.0", "LocationA"⟩] 1 20
      30 3 1 0 true 0 (fun _ => 0) (fun _ => "ts") (fun _ => 0)).2 = none ∧
    (GenerateTemperatureReadings [⟨"SensorA", "001", "v1.0", "LocationA"⟩] 1 20
      30 3 1 0 true 0 (fun _ => 0) (fun _ => "ts") (fun _ => 0)).1.length =
      1 := by
  exact ⟨by norm_num, rfl, rfl⟩

/-- C5 amended: neither the generator nor its callers validate the bounds;
even with `minTemp > maxTemp` generation proceeds, emits the full
`totalTicks * sensorCount` readings, and returns no error. -/
theorem claim_C5 (sensors : List Sensor) (total : Nat)
    (start mi fl mn mx : ℚ) (sim : Bool) (t0 : Nat) (wall : Nat → Nat)
    (fmtT : Nat → String) (rng : Nat → ℚ) (h : mn > mx) :
    (GenerateTemperatureReadings sensors total start mi fl mn mx sim t0 wall
        fmtT rng).2 = none ∧
    (GenerateTemperatureReadings sensors total start mi fl mn mx sim t0 wall
        fmtT rng).1.length = total * sensors.length := by
  refine ⟨rfl, ?_⟩
  simp [GenerateTemperatureReadings, genAux_length]

theorem claim_C5_witness :
    ((1 : ℚ) > 0) ∧
    ((GenerateTemperatureReadings [⟨"SensorA", "001", "v1.0", "LocationA"⟩] 2
        20 30 3 1 0 true 0 (fun _ => 0) (fun _ => "ts") (fun _ => 0)).2 =
      none ∧
    (GenerateTemperatureReadings [⟨"SensorA", "001", "v1.0", "LocationA"⟩] 2
        20 30 3 1 0 true 0 (fun _ => 0) (fun _ => "ts") (fun _ => 0)).1.length =
      2 * 1) :=
  ⟨by norm_num,
    claim_C5 [⟨"SensorA", "001", "v1.0", "LocationA"⟩] 2 20 30 3 1 0 true 0
      (fun _ => 0) (fun _ => "ts") (fun _ => 0) (by norm_num)⟩

/-- C6 as stated is false for the name-keyed generator variant: with two
distinct sensors that share the name SensorA, starting temperature 0, no
fluctuation and ramp increment 2, independent state would emit 2 for both
sensors in the first tick (as the index-keyed generator does), but the
name-keyed variant emits 4 for the second sensor: the first sensor's update
changed the state the second sensor reads. -/
theorem claim_C6_counterexample :
    ((GenerateTemperatureReadingsByName
        [⟨"SensorA", "001", "v1.0", "LocationA"⟩,
         ⟨"SensorA", "002", "v1.0", "LocationB"⟩] 1 0 10 0 (-100) 100
        true 0 (fun _ => 0) (fun _ => "ts") (fun _ => 0)).1.map
      (fun r => r.temperature) = [2, 4]) ∧
    ((GenerateTemperatureReadings
        [⟨"SensorA", "001", "v1.0", "LocationA"⟩,
         ⟨"SensorA", "002", "v1.0", "LocationB"⟩] 1 0 10 0 (-100) 100
        true 0 (fun _ => 0) (fun _ => "ts") (fun _ => 0)).1.map
      (fun r => r.temperature) = [2, 2]) ∧
    ((4 : ℚ) ≠ 2) := by
  refine ⟨?_, ?_, by norm_num⟩
  · norm_num [GenerateTemperatureReadingsByName, genByNameAux,
      tickSensorsByName, mapGet, mapSet, sensorStep, clampTemp,
      fluctuationValue, increaseAmountPerMinute, increasePeriodMinutes,
      readingsPerHour, tickClock, List.find?]
  · norm_num [GenerateTemperatureReadings, genAux, tickSensors, sensorStep,
      clampTemp, fluctuationValue, increaseAmountPerMinute,
      increasePeriodMinutes, readingsPerHour, tickClock]

/-- C6 amended: in the index-keyed generator per-sensor state is
independent — the inner loop's output at position `j` (new state entry and
emitted reading) is a function of the state entry at `j` alone, so changing
any other sensor's current temperature (even one with the same name) leaves
it unchanged. The name-keyed variant violates this for sensors sharing a
name (see the counterexample). -/
theorem claim_C6 (mi fl mn mx : ℚ) (phase : Bool) (ts : String)
    (rng : Nat → ℚ) (st st2 : List (Sensor × ℚ)) (k j : Nat)
    (h : st[j]? = st2[j]?) :
    (tickSensors mi fl mn mx phase ts rng k st)[j]? =
      (tickSensors mi fl mn mx phase ts rng k st2)[j]? := by
  cases hx : st[j]? with
  | none =>
    rw [hx] at h
    have h1 : st.length ≤ j := List.getElem?_eq_none_iff.mp hx
    have h2 : st2.length ≤ j := List.getElem?_eq_none_iff.mp h.symm
    rw [List.getElem?_eq_none (by rw [tickSensors_length]; omega),
      List.getElem?_eq_none (by rw [tickSensors_length]; omega)]
  | some p =>
    rw [hx] at h
    cases p with
    | mk s q =>
      rw [tickSensors_getElem? mi fl mn mx phase ts rng st k j s q hx,
        tickSensors_getElem? mi fl mn mx phase ts rng st2 k j s q h.symm]

theorem claim_C6_witness :
    (([((⟨"SensorA", "001", "v1.0", "LocationA"⟩ : Sensor), (20 : ℚ)),
       (⟨"SensorA", "002", "v1.0", "LocationB"⟩, (20 : ℚ))][1]?) =
      ([((⟨"SensorA", "001", "v1.0", "LocationA"⟩ : Sensor), (99 : ℚ)),
        (⟨"SensorA", "002", "v1.0", "LocationB"⟩, (20 : ℚ))][1]?)) ∧
    (tickSensors 30 3 0 50 true "ts" (fun _ => 0) 0
        [(⟨"SensorA", "001", "v1.0", "LocationA"⟩, (20 : ℚ)),
         (⟨"SensorA", "002", "v1.0", "LocationB"⟩, (20 : ℚ))])[1]? =
      (tickSensors 30 3 0 50 true "ts" (fun _ => 0) 0
        [(⟨"SensorA", "001", "v1.0", "LocationA"⟩, (99 : ℚ)),
         (⟨"SensorA", "002", "v1.0", "LocationB"⟩, (20 : ℚ))])[1]? :=
  ⟨rfl,
    claim_C6 30 3 0 50 true "ts" (fun _ => 0)
      [(⟨"SensorA", "001", "v1.0", "LocationA"⟩, (20 : ℚ)),
       (⟨"SensorA", "002", "v1.0", "LocationB"⟩, (20 : ℚ))]
      [(⟨"SensorA", "001", "v1.0", "LocationA"⟩, (99 : ℚ)),
       (⟨"SensorA", "002", "v1.0", "LocationB"⟩, (20 : ℚ))] 0 1 rfl⟩

/-- serialize-then-parse always succeeds and returns the reading with its
temperature replaced by the two-decimal rounding. -/
theorem roundTrip_reading (r : TemperatureReading) :
    unmarshalReading (marshalReading r) =
      some ⟨r.time, round2 r.temperature, r.sensor⟩ := rfl

/-- half-even rounding fixes the integers. -/
theorem roundHalfEven_intCast (z : ℤ) : roundHalfEven ((z : ℤ) : ℚ) = z := by
  unfold roundHalfEven ratFloor
  norm_num

/-- rounding to two decimals fixes the values that already are two-decimal
(those `q` with `(q * 100).den = 1`). -/
theorem round2_eq_self (q : ℚ) (h : (q * 100).den = 1) : round2 q = q := by
  have hz : ((q * 100).num : ℚ) = q * 100 := by
    rw [← Rat.den_eq_one_iff]
    exact h
  have hround : roundHalfEven (q * 100) = (q * 100).num := by
    rw [← hz, roundHalfEven_intCast, Rat.num_intCast]
  unfold round2
  rw [hround, hz]
  field_simp

/-- C7 as stated is false: a reading whose temperature is
`0.126 = 63/500` does not round-trip — parsing the serialized form yields
temperature `0.13 = 13/100`, a different value. -/
theorem claim_C7_counterexample :
    unmarshalReading (marshalReading
      ⟨"2023-10-01 12:00:00", 63/500,
        ⟨"SensorA", "001", "v1.0", "LocationA"⟩⟩) =
      some ⟨"2023-10-01 12:00:00", 13/100,
        ⟨"SensorA", "001", "v1.0", "LocationA"⟩⟩ ∧
    ((63 / 500 : ℚ) ≠ 13 / 100) := by
  constructor
  · rw [roundTrip_reading]
    norm_num [round2, roundHalfEven, ratFloor, Int.fdiv]
  · norm_num

/-- C7 amended: serialize-then-parse preserves the time string and the
sensor fields exactly and returns the temperature rounded to two decimals;
for readings whose temperature already has at most two decimal digits
(`(temperature * 100).den = 1`) the round-trip is the identity. -/
theorem claim_C7 (r : TemperatureReading)
    (h : (r.temperature * 100).den = 1) :
    unmarshalReading (marshalReading r) = some r := by
  rw [roundTrip_reading, round2_eq_self r.temperature h]

theorem claim_C7_witness :
    ((((51 : ℚ) / 2) * 100).den = 1) ∧
    unmarshalReading (marshalReading
      (⟨"2023-10-01 12:00:00", 51/2,
        ⟨"SensorA", "001", "v1.0", "LocationA"⟩⟩ : TemperatureReading)) =
      some ⟨"2023-10-01 12:00:00", 51/2,
        ⟨"SensorA", "001", "v1.0", "LocationA"⟩⟩ :=
  ⟨by norm_num,
    claim_C7 ⟨"2023-10-01 12:00:00", 51/2,
      ⟨"SensorA", "001", "v1.0", "LocationA"⟩⟩ (by norm_num)⟩

/-- C8 as stated is false: a run of the generator can store a temperature
with more than two decimal digits. With draw `9/16`, amplitude 1 and ramp 0,
the single emitted reading stores `0.125 = 1/8`, and `100 * (1/8)` is not an
integer, so the stored value has three decimal digits. -/
theorem claim_C8_counterexample :
    ((GenerateTemperatureReadings [⟨"SensorA", "001", "v1.0", "LocationA"⟩] 1
        0 0 1 (-10) 10 true 0 (fun _ => 0) (fun _ => "ts")
        (fun _ => 9/16)).1.map (fun r => r.temperature) = [1/8]) ∧
    ((100 * (1/8 : ℚ)).den ≠ 1) := by
  constructor
  · norm_num [GenerateTemperatureReadings, genAux, tickSensors, sensorStep,
      clampTemp, fluctuationValue, increaseAmountPerMinute,
      increasePeriodMinutes, readingsPerHour, tickClock]
  · norm_num

/-- C8 amended: readings store the exact clamped temperature; the rounding
to two decimals happens at JSON serialization time — the serialized
temperature field of any reading is its two-decimal rounding, a value whose
hundredfold is an integer. -/
theorem claim_C8 (r : TemperatureReading) :
    ∃ l, marshalReading r = Json.obj l ∧
      jlookup l "temperature" = some (Json.num (round2 r.temperature)) ∧
      (100 * round2 r.temperature).den = 1 := by
  refine ⟨[("time", Json.str r.time),
    ("temperature", marshalTemperature r.temperature),
    ("sensor", marshalSensor r.sensor)], rfl, rfl, ?_⟩
  have h100 : (100 : ℚ) * ((roundHalfEven (r.temperature * 100) : ℚ) / 100) =
      (roundHalfEven (r.temperature * 100) : ℚ) := by
    field_simp
  rw [round2, h100, Rat.den_intCast]

end TempSim
